import Mathlib

/-!
Shallow embedding of the OBS tutorial recorder's core: the WebSocket
transport client (`src/windows/src/core/obs_websocket.py`), the
source/scene configuration engine (`obs_source_manager.py`) and the
recording session state machine (`recording_manager.py`).

Payload dictionaries are modelled as association lists of strings; the
wire frames carry exactly the fields the embedded code inspects.
Blocking reads from the socket are modelled by an explicit list of
incoming frames: the frames received before the first read timeout.
-/

namespace Obs

/-- Structured payloads (Python `Dict[str, Any]`) reduced to the string
fields the embedded code reads. -/
abbrev JData := List (String × String)

/-- `OBSResponse` dataclass (obs_websocket.py lines 40-48). -/
structure OBSResponse where
  success : Bool
  request_type : String
  request_id : String
  data : JData
  error_code : Option Int := none
  error_message : Option String := none
  deriving DecidableEq, Repr

/-- An incoming wire frame, discriminated by its op code as
`send_request`'s read loop does: op=7 responses carry a request id,
status and payload; op=5 events carry an event type and payload; any
other op is ignored by the loop. -/
inductive Frame where
  | response (requestId : String) (result : Bool) (code : Option Int)
      (comment : Option String) (responseData : JData)
  | event (eventType : String) (eventData : JData)
  | other (op : Nat)
  deriving DecidableEq, Repr

/-- Transport client state: `_connected`, `_ws is not None`, and the
`_request_id` counter (obs_websocket.py lines 57-63). -/
structure ClientState where
  connected_flag : Bool
  ws_open : Bool
  request_id_counter : Nat
  deriving DecidableEq, Repr

/-- `connected` property: `self._connected and self._ws is not None`
(obs_websocket.py lines 102-104). -/
def ClientState.connected (s : ClientState) : Bool :=
  s.connected_flag && s.ws_open

/-- `_next_request_id` (obs_websocket.py lines 106-108): increments the
counter and returns `req_<n>`. -/
def next_request_id (s : ClientState) : ClientState × String :=
  let n := s.request_id_counter + 1
  ({ s with request_id_counter := n }, "req_" ++ toString n)

/-- Builds the `OBSResponse` from a correlated op=7 frame
(obs_websocket.py lines 241-261): error code and message only kept on
failure. -/
def responseOfFrame (request_type rid : String) (result : Bool)
    (code : Option Int) (comment : Option String) (rdata : JData) : OBSResponse :=
  { success := result
    request_type := request_type
    request_id := rid
    data := rdata
    error_code := if result then none else code
    error_message := if result then none else comment }

/-- Synthetic response when the client is not connected
(obs_websocket.py lines 205-213). -/
def notConnectedResponse (request_type : String) : OBSResponse :=
  { success := false
    request_type := request_type
    request_id := ""
    data := []
    error_message := some "Not connected to OBS" }

/-- Synthetic response when the read loop times out
(obs_websocket.py lines 272-280). -/
def timedOutResponse (request_type rid : String) : OBSResponse :=
  { success := false
    request_type := request_type
    request_id := rid
    data := []
    error_message := some "Request timed out" }

/-- The read loop of `send_request` (obs_websocket.py lines 236-270):
consumes frames in order, returning the dispatched events together with
the response correlated to `rid`.  A response frame with a different
request id is dropped and the loop continues; an event frame is passed
to `_handle_event` (recorded in the first component) and the loop
continues; any other op is skipped.  An exhausted frame list is the
read timing out: no correlated response was produced. -/
def process_frames (request_type rid : String) :
    List Frame → List (String × JData) × Option OBSResponse
  | [] => ([], none)
  | Frame.response reqId result code comment rdata :: rest =>
      if reqId = rid then
        ([], some (responseOfFrame request_type rid result code comment rdata))
      else
        process_frames request_type rid rest
  | Frame.event et ed :: rest =>
      let r := process_frames request_type rid rest
      ((et, ed) :: r.1, r.2)
  | Frame.other _ :: rest => process_frames request_type rid rest

/-- `send_request` (obs_websocket.py lines 196-289): short-circuits when
not connected, otherwise allocates the next request id, transmits, and
runs the read loop; a read timeout yields the synthetic timed-out
response.  Returns the updated client state, the events dispatched
while waiting, and the response handed back to the caller. -/
def send_request (s : ClientState) (request_type : String) (frames : List Frame) :
    ClientState × List (String × JData) × OBSResponse :=
  if s.connected then
    let p := next_request_id s
    match process_frames request_type p.2 frames with
    | (evs, some resp) => (p.1, evs, resp)
    | (evs, none) => (p.1, evs, timedOutResponse request_type p.2)
  else
    (s, [], notConnectedResponse request_type)

/-- The events occurring in the frame stream before the first response
frame correlated to `rid` (all events, when no such frame occurs). -/
def events_before (rid : String) : List Frame → List (String × JData)
  | [] => []
  | Frame.response reqId _ _ _ _ :: rest =>
      if reqId = rid then [] else events_before rid rest
  | Frame.event et ed :: rest => (et, ed) :: events_before rid rest
  | Frame.other _ :: rest => events_before rid rest

/-- The response built from the first frame correlated to `rid`, if any
frame in the stream correlates. -/
def correlated_response (request_type rid : String) :
    List Frame → Option OBSResponse
  | [] => none
  | Frame.response reqId result code comment rdata :: rest =>
      if reqId = rid then
        some (responseOfFrame request_type rid result code comment rdata)
      else correlated_response request_type rid rest
  | Frame.event _ _ :: rest => correlated_response request_type rid rest
  | Frame.other _ :: rest => correlated_response request_type rid rest

lemma process_frames_eq (request_type rid : String) (frames : List Frame) :
    process_frames request_type rid frames =
      (events_before rid frames, correlated_response request_type rid frames) := by
  induction frames with
  | nil => rfl
  | cons f rest ih =>
      cases f with
      | response reqId result code comment rdata =>
          by_cases h : reqId = rid <;>
            simp [process_frames, events_before, correlated_response, h, ih]
      | event et ed =>
          simp [process_frames, events_before, correlated_response, ih]
      | other op =>
          simp [process_frames, events_before, correlated_response, ih]

lemma correlated_response_cases (request_type rid : String) (frames : List Frame) :
    (∃ result code comment rdata,
        correlated_response request_type rid frames =
          some (responseOfFrame request_type rid result code comment rdata) ∧
        Frame.response rid result code comment rdata ∈ frames) ∨
    (correlated_response request_type rid frames = none ∧
      ∀ result code comment rdata,
        Frame.response rid result code comment rdata ∉ frames) := by
  induction frames with
  | nil => right; simp [correlated_response]
  | cons f rest ih =>
      cases f with
      | response reqId result code comment rdata =>
          by_cases h : reqId = rid
          · subst h
            left
            exact ⟨result, code, comment, rdata, by simp [correlated_response], by simp⟩
          · rcases ih with ⟨r, c, cm, rd, hc, hm⟩ | ⟨hc, hm⟩
            · left
              exact ⟨r, c, cm, rd, by simp [correlated_response, h, hc],
                List.mem_cons_of_mem _ hm⟩
            · right
              refine ⟨by simp [correlated_response, h, hc], ?_⟩
              intro r c cm rd hmem
              rcases List.mem_cons.mp hmem with heq | hmem'
              · exact h (by injection heq with h1 _ _ _ _; exact h1.symm) |>.elim
              · exact hm r c cm rd hmem'
      | event et ed =>
          rcases ih with ⟨r, c, cm, rd, hc, hm⟩ | ⟨hc, hm⟩
          · left
            exact ⟨r, c, cm, rd, by simpa [correlated_response] using hc,
              List.mem_cons_of_mem _ hm⟩
          · right
            refine ⟨by simpa [correlated_response] using hc, ?_⟩
            intro r c cm rd hmem
            rcases List.mem_cons.mp hmem with heq | hmem'
            · exact Frame.noConfusion heq
            · exact hm r c cm rd hmem'
      | other op =>
          rcases ih with ⟨r, c, cm, rd, hc, hm⟩ | ⟨hc, hm⟩
          · left
            exact ⟨r, c, cm, rd, by simpa [correlated_response] using hc,
              List.mem_cons_of_mem _ hm⟩
          · right
            refine ⟨by simpa [correlated_response] using hc, ?_⟩
            intro r c cm rd hmem
            rcases List.mem_cons.mp hmem with heq | hmem'
            · exact Frame.noConfusion heq
            · exact hm r c cm rd hmem'

/-- C1: on a connected client, `send_request` returns either the
response correlated to the freshly allocated request id — built from a
response frame carrying exactly that id — or, when no frame in the
stream correlates before the read times out, the synthetic "timed out"
response; every event frame received while waiting is routed to the
event dispatcher in arrival order and the read loop keeps going, so an
event is never dropped and never returned as the awaited response. -/
theorem C1_send_request_correlation (s : ClientState) (request_type : String)
    (frames : List Frame) (h : s.connected = true) :
    (send_request s request_type frames).2.2.request_id =
        "req_" ++ toString (s.request_id_counter + 1) ∧
    (send_request s request_type frames).2.1 =
        events_before ("req_" ++ toString (s.request_id_counter + 1)) frames ∧
    ((∃ result code comment rdata,
        Frame.response ("req_" ++ toString (s.request_id_counter + 1))
          result code comment rdata ∈ frames ∧
        (send_request s request_type frames).2.2 =
          responseOfFrame request_type ("req_" ++ toString (s.request_id_counter + 1))
            result code comment rdata) ∨
      ((send_request s request_type frames).2.2 =
          timedOutResponse request_type ("req_" ++ toString (s.request_id_counter + 1)) ∧
        ∀ result code comment rdata,
          Frame.response ("req_" ++ toString (s.request_id_counter + 1))
            result code comment rdata ∉ frames)) := by
  rcases correlated_response_cases request_type
      ("req_" ++ toString (s.request_id_counter + 1)) frames with
    ⟨r, c, cm, rd, hc, hm⟩ | ⟨hc, hm⟩
  · refine ⟨?_, ?_, Or.inl ⟨r, c, cm, rd, hm, ?_⟩⟩ <;>
      simp [send_request, h, next_request_id, process_frames_eq, hc, responseOfFrame]
  · refine ⟨?_, ?_, Or.inr ⟨?_, hm⟩⟩ <;>
      simp [send_request, h, next_request_id, process_frames_eq, hc, timedOutResponse]

/-- Witness for C1 at a concrete connected client and a stream carrying
one event followed by the correlated response. -/
theorem C1_send_request_correlation_witness :
    (ClientState.mk true true 0).connected = true ∧
    ((send_request (ClientState.mk true true 0) "GetVersion"
        [Frame.event "RecordStateChanged" [],
          Frame.response "req_1" true none none []]).2.2.request_id =
        "req_" ++ toString ((ClientState.mk true true 0).request_id_counter + 1) ∧
    (send_request (ClientState.mk true true 0) "GetVersion"
        [Frame.event "RecordStateChanged" [],
          Frame.response "req_1" true none none []]).2.1 =
        events_before
          ("req_" ++ toString ((ClientState.mk true true 0).request_id_counter + 1))
          [Frame.event "RecordStateChanged" [],
            Frame.response "req_1" true none none []] ∧
    ((∃ result code comment rdata,
        Frame.response
            ("req_" ++ toString ((ClientState.mk true true 0).request_id_counter + 1))
            result code comment rdata ∈
          [Frame.event "RecordStateChanged" [],
            Frame.response "req_1" true none none []] ∧
        (send_request (ClientState.mk true true 0) "GetVersion"
            [Frame.event "RecordStateChanged" [],
              Frame.response "req_1" true none none []]).2.2 =
          responseOfFrame "GetVersion"
            ("req_" ++ toString ((ClientState.mk true true 0).request_id_counter + 1))
            result code comment rdata) ∨
      ((send_request (ClientState.mk true true 0) "GetVersion"
            [Frame.event "RecordStateChanged" [],
              Frame.response "req_1" true none none []]).2.2 =
          timedOutResponse "GetVersion"
            ("req_" ++ toString ((ClientState.mk true true 0).request_id_counter + 1)) ∧
        ∀ result code comment rdata,
          Frame.response
              ("req_" ++ toString ((ClientState.mk true true 0).request_id_counter + 1))
              result code comment rdata ∉
            [Frame.event "RecordStateChanged" [],
              Frame.response "req_1" true none none []]))) :=
  ⟨by decide, C1_send_request_correlation (ClientState.mk true true 0) "GetVersion"
    [Frame.event "RecordStateChanged" [], Frame.response "req_1" true none none []]
    (by decide)⟩

/-- Outcome of one attempt of `connect`'s retry loop
(obs_websocket.py lines 121-170): the socket open fails or times out; a
greeting frame arrives whose op is not 0; the greeting is fine but the
frame after Identify has an op other than 2; or the full 3-step
handshake completes. -/
inductive AttemptOutcome where
  | connectFail
  | helloBad (op : Nat)
  | identifiedBad (op : Nat)
  | ok
  deriving DecidableEq, Repr

/-- The body of `connect`'s for-loop (obs_websocket.py lines 110-183),
run attempt by attempt: `connect` never consults `_connected` before
looping, so the loop runs the same way on an already-connected client.
On attempt outcomes that opened the socket, `_ws` is replaced; on a
completed handshake `_connected` is set and the call returns `true`.
The third component counts the completed handshakes. -/
def connect_loop (env : Nat → AttemptOutcome) :
    Nat → Nat → ClientState → ClientState × Bool × Nat
  | _, 0, s => (s, false, 0)
  | i, fuel + 1, s =>
      match env i with
      | AttemptOutcome.ok =>
          ({ s with ws_open := true, connected_flag := true }, true, 1)
      | AttemptOutcome.identifiedBad _ =>
          connect_loop env (i + 1) fuel { s with ws_open := true }
      | AttemptOutcome.helloBad _ =>
          connect_loop env (i + 1) fuel { s with ws_open := true }
      | AttemptOutcome.connectFail =>
          connect_loop env (i + 1) fuel s

/-- `connect(max_retries, retry_delay)` (obs_websocket.py lines
110-183), with the per-attempt server behaviour given by `env`. -/
def connect (s : ClientState) (env : Nat → AttemptOutcome) (max_retries : Nat) :
    ClientState × Bool × Nat :=
  connect_loop env 0 max_retries s

/-- C2 counterexample: against a server that always completes the
handshake, two sequential `connect()` calls with no intervening
`disconnect()` both return `true`, but the handshake is performed on
both calls — twice in total, not at most once — because `connect` has
no already-connected short-circuit. -/
theorem C2_counterexample :
    ((connect (ClientState.mk false false 0) (fun _ => AttemptOutcome.ok) 30).2.1 = true ∧
      (connect (ClientState.mk false false 0) (fun _ => AttemptOutcome.ok) 30).1.connected
        = true ∧
      (connect ((connect (ClientState.mk false false 0) (fun _ => AttemptOutcome.ok) 30).1)
          (fun _ => AttemptOutcome.ok) 30).2.1 = true) ∧
    ¬ ((connect (ClientState.mk false false 0) (fun _ => AttemptOutcome.ok) 30).2.2 +
        (connect ((connect (ClientState.mk false false 0) (fun _ => AttemptOutcome.ok) 30).1)
          (fun _ => AttemptOutcome.ok) 30).2.2 ≤ 1) := by
  decide

/-- C2 amended: a `connect()` call against a server whose first attempt
completes the handshake returns `true` and performs exactly one
handshake, regardless of whether the client was already connected; so
two sequential calls each perform a handshake (two in total) and both
return `true` — `connect` is not a no-op on an already-connected
client. -/
theorem C2_connect_rehandshakes (s : ClientState) (env : Nat → AttemptOutcome)
    (n : Nat) (hn : 0 < n) (hok : env 0 = AttemptOutcome.ok) :
    (connect s env n).2.1 = true ∧ (connect s env n).2.2 = 1 ∧
    (connect s env n).1.connected = true ∧
    (connect (connect s env n).1 env n).2.1 = true ∧
    (connect (connect s env n).1 env n).2.2 = 1 := by
  obtain ⟨m, rfl⟩ : ∃ m, n = m + 1 := ⟨n - 1, (Nat.succ_pred_eq_of_pos hn).symm⟩
  simp [connect, connect_loop, hok, ClientState.connected]

/-- Witness for the amended C2 at a fresh client and an always-ok
server with the default 30 retries. -/
theorem C2_connect_rehandshakes_witness :
    (0 < 30 ∧ (fun _ => AttemptOutcome.ok : Nat → AttemptOutcome) 0 = AttemptOutcome.ok) ∧
    ((connect (ClientState.mk false false 0) (fun _ => AttemptOutcome.ok) 30).2.1 = true ∧
      (connect (ClientState.mk false false 0) (fun _ => AttemptOutcome.ok) 30).2.2 = 1 ∧
      (connect (ClientState.mk false false 0) (fun _ => AttemptOutcome.ok) 30).1.connected
        = true ∧
      (connect ((connect (ClientState.mk false false 0) (fun _ => AttemptOutcome.ok) 30).1)
          (fun _ => AttemptOutcome.ok) 30).2.1 = true ∧
      (connect ((connect (ClientState.mk false false 0) (fun _ => AttemptOutcome.ok) 30).1)
          (fun _ => AttemptOutcome.ok) 30).2.2 = 1) :=
  ⟨⟨by decide, rfl⟩, C2_connect_rehandshakes (ClientState.mk false false 0)
    (fun _ => AttemptOutcome.ok) 30 (by decide) rfl⟩

/-- `RecordingState` enum (recording_manager.py lines 44-49). -/
inductive RecordingState where
  | idle
  | starting
  | recording
  | stopping
  deriving DecidableEq, Repr

/-- `SessionInfo` dataclass (recording_manager.py lines 52-66): paths
modelled as strings, `start_time` as an integer timestamp. -/
structure SessionInfo where
  project_name : String
  project_path : String
  session_path : String
  profile_name : String
  scene_name : String
  start_time : Int
  deriving DecidableEq, Repr

/-- The mutable fields of `RecordingManager` that the session state
machine reads and writes (recording_manager.py lines 75-82). -/
structure RMState where
  state : RecordingState
  session : Option SessionInfo
  last_error : Option String
  deriving DecidableEq, Repr

/-- Abstract outcome of `start_recording`'s step 1-11 pipeline
(recording_manager.py lines 319-420): either every hard step succeeded
and the `SessionInfo` built at the end is given, or some step raised
with a message. -/
inductive PipelineOutcome where
  | success (info : SessionInfo)
  | failure (msg : String)
  deriving DecidableEq, Repr

/-- `start_recording` (recording_manager.py lines 297-426): the guard
at lines 307-309 rejects any state other than IDLE before touching the
session; on pipeline success the session is materialized and the state
becomes RECORDING; on a raised step the except-branch records the error
and returns the machine to IDLE with the session untouched. -/
def start_recording (s : RMState) (pipeline : PipelineOutcome) : RMState × Bool :=
  if s.state ≠ RecordingState.idle then
    ({ s with last_error := some "Cannot start recording: not in idle state" }, false)
  else
    match pipeline with
    | PipelineOutcome.success info =>
        ({ state := RecordingState.recording, session := some info,
           last_error := none }, true)
    | PipelineOutcome.failure msg =>
        ({ state := RecordingState.idle, session := s.session,
           last_error := some ("Start recording failed: " ++ msg) }, false)

/-- One teardown step of `stop_recording` either returns normally or
raises. -/
inductive StepResult where
  | ok
  | raises (msg : String)
  deriving DecidableEq, Repr

/-- Environment for `stop_recording`'s teardown steps.
`stopRecordCmd`: `Except.error` models the StopRecord call raising;
`Except.ok b` models a returned response with success flag `b` (a
timed-out or failed response is `ok false`). The other fields give the
behaviour of the disable-ISO, collect-recordings and transcription
steps. -/
structure StopEnv where
  stopRecordCmd : Except String Bool
  disableIso : StepResult
  collect : StepResult
  transcribe : StepResult
  deriving Repr

/-- `stop_recording` (recording_manager.py lines 428-489): the
RECORDING guard, then the teardown steps inside `try`, where a failed
StopRecord response is only logged (line 451-452) and the `finally`
block (lines 486-489) clears the session and returns the state machine
to IDLE on every path through the body. The disable-ISO step runs only
when a session exists (line 459). The last component is the trace of
steps actually started, in order. -/
def stop_recording (s : RMState) (env : StopEnv) : RMState × Bool × List String :=
  if s.state ≠ RecordingState.recording then
    ({ s with last_error := some "Cannot stop recording: not recording" }, false, [])
  else
    let stopping : RMState := { s with state := RecordingState.stopping }
    let fin : RMState → Bool → List String → RMState × Bool × List String :=
      fun st b tr =>
        ({ st with session := none, state := RecordingState.idle }, b, tr)
    match env.stopRecordCmd with
    | Except.error msg =>
        fin { stopping with last_error := some ("Stop recording failed: " ++ msg) }
          false ["stop_record"]
    | Except.ok _ =>
        let tr1 := ["stop_record", "wait_finalize"] ++
          (if stopping.session.isSome then ["disable_iso"] else [])
        match (if stopping.session.isSome then env.disableIso else StepResult.ok) with
        | StepResult.raises msg =>
            fin { stopping with last_error := some ("Stop recording failed: " ++ msg) }
              false tr1
        | StepResult.ok =>
            match env.collect with
            | StepResult.raises msg =>
                fin { stopping with
                    last_error := some ("Stop recording failed: " ++ msg) }
                  false (tr1 ++ ["collect"])
            | StepResult.ok =>
                match env.transcribe with
                | StepResult.raises msg =>
                    fin { stopping with
                        last_error := some ("Stop recording failed: " ++ msg) }
                      false (tr1 ++ ["collect", "transcribe"])
                | StepResult.ok =>
                    fin stopping true (tr1 ++ ["collect", "transcribe", "open_folder"])

/-- C3: `start_recording` called in RECORDING, STARTING or STOPPING
returns `false` with the state and session unchanged; `stop_recording`
called in any state other than RECORDING returns `false` with the state
and session unchanged and no teardown step started; and the accepting
states do accept: IDLE lets a successful start pipeline return `true`,
and RECORDING lets a clean teardown return `true`. -/
theorem C3_state_machine_exclusivity (s : RMState) (p : PipelineOutcome)
    (env : StopEnv) :
    (s.state = RecordingState.recording ∨ s.state = RecordingState.starting ∨
        s.state = RecordingState.stopping →
      (start_recording s p).2 = false ∧ (start_recording s p).1.state = s.state ∧
        (start_recording s p).1.session = s.session) ∧
    (s.state ≠ RecordingState.recording →
      (stop_recording s env).2.1 = false ∧ (stop_recording s env).1.state = s.state ∧
        (stop_recording s env).1.session = s.session ∧
        (stop_recording s env).2.2 = []) ∧
    (s.state = RecordingState.idle → ∀ info,
      (start_recording s (PipelineOutcome.success info)).2 = true) ∧
    (s.state = RecordingState.recording →
      (stop_recording s
        (StopEnv.mk (Except.ok true) StepResult.ok StepResult.ok StepResult.ok)).2.1
        = true) := by
  refine ⟨?_, ?_, ?_, ?_⟩
  · intro hbusy
    have hne : s.state ≠ RecordingState.idle := by
      rcases hbusy with h | h | h <;> simp [h]
    simp [start_recording, hne]
  · intro hne
    simp [stop_recording, hne]
  · intro hidle info
    simp [start_recording, hidle]
  · intro hrec
    simp [stop_recording, hrec]

/-- Witness for C3 at a machine in STARTING state (both rejection
antecedents hold there). -/
theorem C3_state_machine_exclusivity_witness :
    ((start_recording (RMState.mk RecordingState.starting none none)
        (PipelineOutcome.success (SessionInfo.mk "p" "pp" "sp" "prof" "scene" 0))).2
        = false ∧
      (start_recording (RMState.mk RecordingState.starting none none)
        (PipelineOutcome.success (SessionInfo.mk "p" "pp" "sp" "prof" "scene" 0))).1.state
        = (RMState.mk RecordingState.starting none none).state ∧
      (start_recording (RMState.mk RecordingState.starting none none)
        (PipelineOutcome.success
          (SessionInfo.mk "p" "pp" "sp" "prof" "scene" 0))).1.session
        = (RMState.mk RecordingState.starting none none).session) ∧
    ((stop_recording (RMState.mk RecordingState.starting none none)
        (StopEnv.mk (Except.ok true) StepResult.ok StepResult.ok StepResult.ok)).2.1
        = false ∧
      (stop_recording (RMState.mk RecordingState.starting none none)
        (StopEnv.mk (Except.ok true) StepResult.ok StepResult.ok StepResult.ok)).1.state
        = (RMState.mk RecordingState.starting none none).state ∧
      (stop_recording (RMState.mk RecordingState.starting none none)
        (StopEnv.mk (Except.ok true) StepResult.ok StepResult.ok
          StepResult.ok)).1.session
        = (RMState.mk RecordingState.starting none none).session ∧
      (stop_recording (RMState.mk RecordingState.starting none none)
        (StopEnv.mk (Except.ok true) StepResult.ok StepResult.ok StepResult.ok)).2.2
        = []) :=
  ⟨(C3_state_machine_exclusivity (RMState.mk RecordingState.starting none none)
      (PipelineOutcome.success (SessionInfo.mk "p" "pp" "sp" "prof" "scene" 0))
      (StopEnv.mk (Except.ok true) StepResult.ok StepResult.ok StepResult.ok)).1
    (Or.inr (Or.inl rfl)),
   (C3_state_machine_exclusivity (RMState.mk RecordingState.starting none none)
      (PipelineOutcome.success (SessionInfo.mk "p" "pp" "sp" "prof" "scene" 0))
      (StopEnv.mk (Except.ok true) StepResult.ok StepResult.ok StepResult.ok)).2.1
    (by decide)⟩

/-- C10: once `stop_recording` passes the RECORDING guard, the finally
block clears the session and returns the machine to IDLE on every path
— whatever the step outcomes — and a stop-record command that returns a
failed or timed-out response (`ok b`, any `b`) does not abort the rest
of the teardown: the wait step runs, the collect step is started once
the disable step did not raise, and transcription is started once
collect also returned. -/
theorem C10_stop_teardown_unconditional (s : RMState) (env : StopEnv)
    (h : s.state = RecordingState.recording) :
    (stop_recording s env).1.session = none ∧
    (stop_recording s env).1.state = RecordingState.idle ∧
    (∀ b, env.stopRecordCmd = Except.ok b →
      "wait_finalize" ∈ (stop_recording s env).2.2 ∧
      ((if s.session.isSome then env.disableIso else StepResult.ok) = StepResult.ok →
        "collect" ∈ (stop_recording s env).2.2) ∧
      ((if s.session.isSome then env.disableIso else StepResult.ok) = StepResult.ok →
        env.collect = StepResult.ok →
        "transcribe" ∈ (stop_recording s env).2.2)) := by
  have hne : ¬ s.state ≠ RecordingState.recording := by simp [h]
  rcases hcmd : env.stopRecordCmd with msg | b
  · refine ⟨?_, ?_, ?_⟩
    · simp [stop_recording, hne, hcmd]
    · simp [stop_recording, hne, hcmd]
    · intro b hb; exact absurd hb (by simp)
  · rcases hd : (if s.session.isSome then env.disableIso else StepResult.ok) with
      _ | msg
    · rcases hc : env.collect with _ | msg
      · rcases ht : env.transcribe with _ | msg <;>
          refine ⟨?_, ?_, fun b hb => ⟨?_, fun _ => ?_, fun _ _ => ?_⟩⟩ <;>
            simp [stop_recording, hne, hcmd, hd, hc, ht]
      · refine ⟨?_, ?_, fun b hb =>
          ⟨?_, fun _ => ?_, fun _ hcoll => absurd hcoll (by simp)⟩⟩ <;>
            simp [stop_recording, hne, hcmd, hd, hc]
    · refine ⟨?_, ?_, fun b hb =>
        ⟨?_, fun hdok => absurd hdok (by simp),
          fun hdok _ => absurd hdok (by simp)⟩⟩ <;>
          simp [stop_recording, hne, hcmd, hd]

/-- Witness for C10 at a recording session whose stop-record command
returns a failed response and whose later steps all succeed. -/
theorem C10_stop_teardown_unconditional_witness :
    (stop_recording
        (RMState.mk RecordingState.recording
          (some (SessionInfo.mk "p" "pp" "sp" "prof" "scene" 0)) none)
        (StopEnv.mk (Except.ok false) StepResult.ok StepResult.ok
          StepResult.ok)).1.session = none ∧
    (stop_recording
        (RMState.mk RecordingState.recording
          (some (SessionInfo.mk "p" "pp" "sp" "prof" "scene" 0)) none)
        (StopEnv.mk (Except.ok false) StepResult.ok StepResult.ok
          StepResult.ok)).1.state = RecordingState.idle ∧
    (∀ b, (StopEnv.mk (Except.ok false) StepResult.ok StepResult.ok
          StepResult.ok).stopRecordCmd = Except.ok b →
      "wait_finalize" ∈ (stop_recording
        (RMState.mk RecordingState.recording
          (some (SessionInfo.mk "p" "pp" "sp" "prof" "scene" 0)) none)
        (StopEnv.mk (Except.ok false) StepResult.ok StepResult.ok
          StepResult.ok)).2.2 ∧
      ((if (RMState.mk RecordingState.recording
            (some (SessionInfo.mk "p" "pp" "sp" "prof" "scene" 0)) none).session.isSome
          then (StopEnv.mk (Except.ok false) StepResult.ok StepResult.ok
            StepResult.ok).disableIso
          else StepResult.ok) = StepResult.ok →
        "collect" ∈ (stop_recording
          (RMState.mk RecordingState.recording
            (some (SessionInfo.mk "p" "pp" "sp" "prof" "scene" 0)) none)
          (StopEnv.mk (Except.ok false) StepResult.ok StepResult.ok
            StepResult.ok)).2.2) ∧
      ((if (RMState.mk RecordingState.recording
            (some (SessionInfo.mk "p" "pp" "sp" "prof" "scene" 0)) none).session.isSome
          then (StopEnv.mk (Except.ok false) StepResult.ok StepResult.ok
            StepResult.ok).disableIso
          else StepResult.ok) = StepResult.ok →
        (StopEnv.mk (Except.ok false) StepResult.ok StepResult.ok
          StepResult.ok).collect = StepResult.ok →
        "transcribe" ∈ (stop_recording
          (RMState.mk RecordingState.recording
            (some (SessionInfo.mk "p" "pp" "sp" "prof" "scene" 0)) none)
          (StopEnv.mk (Except.ok false) StepResult.ok StepResult.ok
            StepResult.ok)).2.2)) :=
  C10_stop_teardown_unconditional
    (RMState.mk RecordingState.recording
      (some (SessionInfo.mk "p" "pp" "sp" "prof" "scene" 0)) none)
    (StopEnv.mk (Except.ok false) StepResult.ok StepResult.ok StepResult.ok)
    rfl

/-- `ProfileConfiguration` dataclass (utils/config.py lines 21-28). -/
structure ProfileConfiguration where
  profile_name : String
  displays : List String
  cameras : List String
  audio_inputs : List String
  is_configured : Bool
  deriving DecidableEq, Repr

/-- Outcome of a create request as the ensure operations see it: the
response succeeded, or failed with a numeric error code (if any) and a
message. -/
inductive ReqOutcome where
  | ok
  | err (code : Option Int) (msg : String)
  deriving DecidableEq, Repr

/-- `ensure_profile_exists` (obs_source_manager.py lines 91-114): true
when the name is already in the queried profile list; otherwise the
create request runs, and its success — or a failure with code 601
(already exists) — yields true, any other failure false. -/
def ensure_profile_exists (profile_names : List String) (createRes : ReqOutcome)
    (profile_name : String) : Bool :=
  if profile_name ∈ profile_names then true
  else
    match createRes with
    | ReqOutcome.ok => true
    | ReqOutcome.err code _ => code == some 601

/-- `ensure_scene_exists` (obs_source_manager.py lines 167-187): same
create-or-already-exists shape over the scene list. -/
def ensure_scene_exists (scenes : List String) (createRes : ReqOutcome)
    (scene_name : String) : Bool :=
  if scene_name ∈ scenes then true
  else
    match createRes with
    | ReqOutcome.ok => true
    | ReqOutcome.err code _ => code == some 601

/-- The expected source-name set built by `check_if_profile_configured`
(obs_source_manager.py lines 498-502): `Display i+1` for each
configured display index i, plus every camera label and every
microphone label. -/
def expected_sources (config : ProfileConfiguration) : List String :=
  (List.range config.displays.length).map
      (fun idx => "Display " ++ toString (idx + 1)) ++
    config.cameras ++ config.audio_inputs

/-- `check_if_profile_configured` (obs_source_manager.py lines
475-520): false when the scene does not exist; otherwise false exactly
when some expected source is missing from the live scene items — extra
live sources only produce a warning. -/
def check_if_profile_configured (scenes : List String)
    (actual_sources : List String) (scene_name : String)
    (expected_config : ProfileConfiguration) : Bool :=
  if scene_name ∉ scenes then false
  else
    let missing := (expected_sources expected_config).filter
      (fun src => decide (src ∉ actual_sources))
    missing.isEmpty

/-- C6: `ensure_profile_exists` and `ensure_scene_exists` return true
when the entity is in the queried list, when the create request
succeeds, and when the create request fails with code 601; they return
false when the entity is absent and the create request fails with any
other code. -/
theorem C6_already_exists_tolerance (names : List String) (name : String)
    (createRes : ReqOutcome) :
    (name ∈ names →
      ensure_profile_exists names createRes name = true ∧
      ensure_scene_exists names createRes name = true) ∧
    (createRes = ReqOutcome.ok →
      ensure_profile_exists names createRes name = true ∧
      ensure_scene_exists names createRes name = true) ∧
    (∀ msg, createRes = ReqOutcome.err (some 601) msg →
      ensure_profile_exists names createRes name = true ∧
      ensure_scene_exists names createRes name = true) ∧
    (∀ code msg, name ∉ names → createRes = ReqOutcome.err code msg →
      code ≠ some 601 →
      ensure_profile_exists names createRes name = false ∧
      ensure_scene_exists names createRes name = false) := by
  refine ⟨fun hmem => ?_, fun hok => ?_, fun msg h601 => ?_,
    fun code msg hnm herr hne => ?_⟩
  · simp [ensure_profile_exists, ensure_scene_exists, hmem]
  · subst hok; by_cases hmem : name ∈ names <;>
      simp [ensure_profile_exists, ensure_scene_exists, hmem]
  · subst h601; by_cases hmem : name ∈ names <;>
      simp [ensure_profile_exists, ensure_scene_exists, hmem]
  · subst herr
    simp [ensure_profile_exists, ensure_scene_exists, hnm, hne]

/-- Witness for C6: a create call failing with the already-exists code
601 still yields true from both ensure operations. -/
theorem C6_already_exists_tolerance_witness :
    ensure_profile_exists ["A"] (ReqOutcome.err (some 601) "exists") "B" = true ∧
    ensure_scene_exists ["A"] (ReqOutcome.err (some 601) "exists") "B" = true :=
  (C6_already_exists_tolerance ["A"] "B"
    (ReqOutcome.err (some 601) "exists")).2.2.1 "exists" rfl

lemma check_configured_of_superset (scenes actual : List String)
    (scene_name : String) (config : ProfileConfiguration)
    (hscene : scene_name ∈ scenes)
    (hsub : ∀ src ∈ expected_sources config, src ∈ actual) :
    check_if_profile_configured scenes actual scene_name config = true := by
  have hnil : (expected_sources config).filter
      (fun src => decide (src ∉ actual)) = [] :=
    List.filter_eq_nil_iff.mpr (by intro a ha; simp [hsub a ha])
  simp [check_if_profile_configured, hscene, hnil]
  exact hsub

lemma check_configured_of_missing (scenes actual : List String)
    (scene_name : String) (config : ProfileConfiguration)
    (hscene : scene_name ∈ scenes) (src : String)
    (hsrc : src ∈ expected_sources config) (hmiss : src ∉ actual) :
    check_if_profile_configured scenes actual scene_name config = false := by
  have hne : (expected_sources config).filter
      (fun src => decide (src ∉ actual)) ≠ [] := by
    intro hnil
    have hmem : src ∈ (expected_sources config).filter
        (fun src => decide (src ∉ actual)) :=
      List.mem_filter.mpr ⟨hsrc, by simpa using hmiss⟩
    rw [hnil] at hmem
    exact absurd hmem (List.not_mem_nil src)
  simp [check_if_profile_configured, hscene, List.isEmpty_iff, hne]
  exact ⟨src, hsrc, hmiss⟩

/-- C7: when the scene exists and its live item-name set is a superset
of the expected source set, `check_if_profile_configured` returns true
(extra sources tolerated); whenever some expected source is missing
from the live set it returns false. -/
theorem C7_configured_check_tolerance (scenes actual : List String)
    (scene_name : String) (config : ProfileConfiguration)
    (hscene : scene_name ∈ scenes) :
    ((∀ src ∈ expected_sources config, src ∈ actual) →
      check_if_profile_configured scenes actual scene_name config = true) ∧
    (∀ src ∈ expected_sources config, src ∉ actual →
      check_if_profile_configured scenes actual scene_name config = false) :=
  ⟨check_configured_of_superset scenes actual scene_name config hscene,
   fun src hsrc hmiss =>
    check_configured_of_missing scenes actual scene_name config hscene
      src hsrc hmiss⟩

/-- Witness for C7: expected sources A and B, live set with an extra C
gives true; live set missing B gives false. -/
theorem C7_configured_check_tolerance_witness :
    check_if_profile_configured ["Scene"] ["A", "B", "C"] "Scene"
      (ProfileConfiguration.mk "P" [] ["A"] ["B"] true) = true ∧
    check_if_profile_configured ["Scene"] ["A"] "Scene"
      (ProfileConfiguration.mk "P" [] ["A"] ["B"] true) = false :=
  ⟨(C7_configured_check_tolerance ["Scene"] ["A", "B", "C"] "Scene"
      (ProfileConfiguration.mk "P" [] ["A"] ["B"] true) (by decide)).1
    (by decide),
   (C7_configured_check_tolerance ["Scene"] ["A"] "Scene"
      (ProfileConfiguration.mk "P" [] ["A"] ["B"] true) (by decide)).2
    "B" (by decide) (by decide)⟩

/-- `DEFAULT_SCENE_NAME` (obs_source_manager.py line 29). -/
def DEFAULT_SCENE_NAME : String := "Tutorial Recording"

/-- Per-source creation outcome in `configure_profile`'s build phase:
the CreateInput call succeeds; or it fails with code 601 and the
follow-up CreateSceneItem call for the existing global source has the
given outcome; or it fails with another code
(obs_source_manager.py lines 248-432). -/
inductive CreateOutcome where
  | created
  | alreadyExists (addOutcome : ReqOutcome)
  | failed (code : Option Int) (msg : String)
  deriving DecidableEq, Repr

/-- Whether `create_display_capture` / `create_camera_capture` /
`create_audio_capture` leaves the source present in the scene
(obs_source_manager.py lines 248-432): created, or attached as an
existing global source (including the already-in-scene 601 case of
`_add_existing_source_to_scene`, lines 416-432). -/
def source_lands_in_scene : CreateOutcome → Bool
  | CreateOutcome.created => true
  | CreateOutcome.alreadyExists ReqOutcome.ok => true
  | CreateOutcome.alreadyExists (ReqOutcome.err code _) => code == some 601
  | CreateOutcome.failed _ _ => false

/-- Environment for `configure_profile`: the remote profile list and
profile-create outcome, the switch result, the scene list, the live
scene items before configuration, the scene-create outcome, and the
per-source creation outcome during the build phase. -/
structure ConfigureEnv where
  profiles : List String
  profileCreate : ReqOutcome
  switch_ok : Bool
  scenes : List String
  live_sources : List String
  sceneCreate : ReqOutcome
  create : String → CreateOutcome

/-- `configure_profile` (obs_source_manager.py lines 678-762): ensure
profile, switch; fast path when `check_if_profile_configured` passes
(scene left as is); otherwise ensure the scene, set it current, clear
it (result ignored, modelled as emptying the scene), create one source
per expected name in order — each creation's result ignored — run
`verify_and_fix_input_settings` (result ignored) and return true.
Returns the flag together with the scene's item names afterwards. -/
def configure_profile (env : ConfigureEnv) (config : ProfileConfiguration) :
    Bool × List String :=
  if ¬ ensure_profile_exists env.profiles env.profileCreate config.profile_name then
    (false, env.live_sources)
  else if ¬ env.switch_ok then
    (false, env.live_sources)
  else if check_if_profile_configured env.scenes env.live_sources
      DEFAULT_SCENE_NAME config then
    (true, env.live_sources)
  else if ¬ ensure_scene_exists env.scenes env.sceneCreate DEFAULT_SCENE_NAME then
    (false, env.live_sources)
  else
    (true, (expected_sources config).filter
      (fun src => source_lands_in_scene (env.create src)))

/-- C4 counterexample: with the profile present, the switch succeeding
and the scene existing but empty, every per-source CreateInput failing
with code 100 leaves the scene missing every expected source after
`configure_profile` completes — yet `configure_profile` returns true,
so a missing expected source after configuration is not a hard
failure. -/
theorem C4_counterexample :
    (configure_profile
        (ConfigureEnv.mk ["Demo"] ReqOutcome.ok true [DEFAULT_SCENE_NAME] []
          ReqOutcome.ok (fun _ => CreateOutcome.failed (some 100) "create failed"))
        (ProfileConfiguration.mk "Demo" ["Main Display"] ["Camera 1"]
          ["Microphone"] true)).1 = true ∧
    "Display 1" ∈ expected_sources
      (ProfileConfiguration.mk "Demo" ["Main Display"] ["Camera 1"]
        ["Microphone"] true) ∧
    "Display 1" ∉ (configure_profile
        (ConfigureEnv.mk ["Demo"] ReqOutcome.ok true [DEFAULT_SCENE_NAME] []
          ReqOutcome.ok (fun _ => CreateOutcome.failed (some 100) "create failed"))
        (ProfileConfiguration.mk "Demo" ["Main Display"] ["Camera 1"]
          ["Microphone"] true)).2 := by
  decide

/-- C4 amended: `configure_profile` returns false exactly when
ensure-profile fails, the switch fails, or — the fast-path check having
failed — ensure-scene fails; it performs no completeness re-check
after building sources, so per-source creation failures never turn the
result false; and extra live sources are tolerated: with profile and
switch fine, an existing scene whose live items include every expected
source takes the fast path and yields true with the scene untouched. -/
theorem C4_reconciliation_no_postcheck (env : ConfigureEnv)
    (config : ProfileConfiguration) :
    ((configure_profile env config).1 = false ↔
      (ensure_profile_exists env.profiles env.profileCreate config.profile_name
          = false ∨
        (ensure_profile_exists env.profiles env.profileCreate config.profile_name
            = true ∧ env.switch_ok = false) ∨
        (ensure_profile_exists env.profiles env.profileCreate config.profile_name
            = true ∧ env.switch_ok = true ∧
          check_if_profile_configured env.scenes env.live_sources
            DEFAULT_SCENE_NAME config = false ∧
          ensure_scene_exists env.scenes env.sceneCreate DEFAULT_SCENE_NAME
            = false))) ∧
    (ensure_profile_exists env.profiles env.profileCreate config.profile_name
        = true →
      env.switch_ok = true →
      DEFAULT_SCENE_NAME ∈ env.scenes →
      (∀ src ∈ expected_sources config, src ∈ env.live_sources) →
      configure_profile env config = (true, env.live_sources)) := by
  constructor
  · by_cases hp : ensure_profile_exists env.profiles env.profileCreate
        config.profile_name
    · by_cases hs : env.switch_ok
      · by_cases hc : check_if_profile_configured env.scenes env.live_sources
            DEFAULT_SCENE_NAME config
        · simp [configure_profile, hp, hs, hc]
        · by_cases he : ensure_scene_exists env.scenes env.sceneCreate
              DEFAULT_SCENE_NAME <;>
            simp [configure_profile, hp, hs, hc, he]
      · simp [configure_profile, hp, hs]
    · simp [configure_profile, hp]
  · intro hp hs hscene hsub
    have hc : check_if_profile_configured env.scenes env.live_sources
        DEFAULT_SCENE_NAME config = true :=
      check_configured_of_superset env.scenes env.live_sources
        DEFAULT_SCENE_NAME config hscene hsub
    simp [configure_profile, hp, hs, hc]

/-- Witness for the amended C4: fast path on a live scene carrying the
expected sources plus an extra one. -/
theorem C4_reconciliation_no_postcheck_witness :
    configure_profile
        (ConfigureEnv.mk ["Demo"] ReqOutcome.ok true [DEFAULT_SCENE_NAME]
          ["Display 1", "Camera 1", "Microphone", "Extra"]
          ReqOutcome.ok (fun _ => CreateOutcome.created))
        (ProfileConfiguration.mk "Demo" ["Main Display"] ["Camera 1"]
          ["Microphone"] true) =
      (true, ["Display 1", "Camera 1", "Microphone", "Extra"]) :=
  (C4_reconciliation_no_postcheck
      (ConfigureEnv.mk ["Demo"] ReqOutcome.ok true [DEFAULT_SCENE_NAME]
        ["Display 1", "Camera 1", "Microphone", "Extra"]
        ReqOutcome.ok (fun _ => CreateOutcome.created))
      (ProfileConfiguration.mk "Demo" ["Main Display"] ["Camera 1"]
        ["Microphone"] true)).2
    (by decide) rfl (by decide) (by decide)

/-- Environment for `verify_and_fix_input_settings`: the live settings
fetched per input (`none` models a failed GetInputSettings call; for a
camera the `video_device_id` field, for an audio input the `device_id`
field, `""` when absent), the device enumerator's name-to-id
resolution, and the success of SetInputSettings per input. -/
structure VerifyEnv where
  camera_settings : String → Option String
  audio_settings : String → Option String
  find_camera : String → Option String
  find_audio : String → Option String
  set_ok : String → Bool

/-- `_verify_and_fix_camera` (obs_source_manager.py lines 547-584):
fetch the live `video_device_id`, resolve the expected device via the
enumerator, and on mismatch issue a SetInputSettings update to the
expected id.  Returns the success flag and the update issued, if any. -/
def verify_and_fix_camera (env : VerifyEnv) (input_name : String) :
    Bool × Option (String × String) :=
  match env.camera_settings input_name with
  | none => (false, none)
  | some current_device =>
      match env.find_camera input_name with
      | none => (false, none)
      | some expected_device =>
          if current_device = expected_device then (true, none)
          else (env.set_ok input_name, some (input_name, expected_device))

/-- `_verify_and_fix_audio` (obs_source_manager.py lines 586-620):
fetch the live `device_id`; only an empty binding triggers a fix (to
the enumerator-resolved id, defaulting to "default") — a nonempty
binding is accepted with no comparison against the enumerator. -/
def verify_and_fix_audio (env : VerifyEnv) (input_name : String) :
    Bool × Option (String × String) :=
  match env.audio_settings input_name with
  | none => (false, none)
  | some current_device =>
      if current_device = "" then
        ((env.set_ok input_name),
          some (input_name, (env.find_audio input_name).getD "default"))
      else (true, none)

/-- `verify_and_fix_input_settings` (obs_source_manager.py lines
522-545): runs the camera check over every configured camera, then the
audio check over every configured audio input; the flag is the
conjunction of all per-input flags, and the updates are those issued,
in order. -/
def verify_and_fix_input_settings (env : VerifyEnv)
    (config : ProfileConfiguration) : Bool × List (String × String) :=
  let cam := config.cameras.map (verify_and_fix_camera env)
  let aud := config.audio_inputs.map (verify_and_fix_audio env)
  ((cam ++ aud).all (fun r => r.1), (cam ++ aud).filterMap (fun r => r.2))

/-- C8 counterexample: a microphone whose fetched live binding
"wrong_dev" differs from the enumerator-resolved expected id
"right_dev" receives no corrective update — the run reports success
and issues no update, though the claim requires an update on
mismatch. -/
theorem C8_counterexample :
    verify_and_fix_input_settings
        (VerifyEnv.mk (fun _ => none)
          (fun n => if n = "Mic 1" then some "wrong_dev" else none)
          (fun _ => none)
          (fun n => if n = "Mic 1" then some "right_dev" else none)
          (fun _ => true))
        (ProfileConfiguration.mk "Demo" [] [] ["Mic 1"] true) = (true, []) ∧
    (VerifyEnv.mk (fun _ => none)
        (fun n => if n = "Mic 1" then some "wrong_dev" else none)
        (fun _ => none)
        (fun n => if n = "Mic 1" then some "right_dev" else none)
        (fun _ => true)).audio_settings "Mic 1" = some "wrong_dev" ∧
    (VerifyEnv.mk (fun _ => none)
        (fun n => if n = "Mic 1" then some "wrong_dev" else none)
        (fun _ => none)
        (fun n => if n = "Mic 1" then some "right_dev" else none)
        (fun _ => true)).find_audio "Mic 1" = some "right_dev" ∧
    ("wrong_dev" : String) ≠ "right_dev" := by
  refine ⟨?_, rfl, rfl, by decide⟩
  decide

/-- C8 amended: cameras behave as the claim says — when the settings
fetch succeeds and the enumerator resolves an expected id, a
corrective update to that id is issued exactly on mismatch; for
microphones the fetched binding is compared only against the empty
string: an update (to the resolved id, defaulting to "default") is
issued exactly when the binding is empty, and a nonempty binding is
accepted with no update; the updates issued by
`verify_and_fix_input_settings` are exactly the per-camera updates
followed by the per-microphone updates, in configuration order. -/
theorem C8_verify_and_fix_devices (env : VerifyEnv)
    (config : ProfileConfiguration) (name cur exp acur : String)
    (hcam : env.camera_settings name = some cur)
    (hfind : env.find_camera name = some exp)
    (haud : env.audio_settings name = some acur) :
    (verify_and_fix_camera env name).2 =
      (if cur = exp then none else some (name, exp)) ∧
    (verify_and_fix_audio env name).2 =
      (if acur = "" then some (name, (env.find_audio name).getD "default")
        else none) ∧
    (verify_and_fix_input_settings env config).2 =
      config.cameras.filterMap (fun c => (verify_and_fix_camera env c).2) ++
        config.audio_inputs.filterMap
          (fun a => (verify_and_fix_audio env a).2) := by
  refine ⟨?_, ?_, ?_⟩
  · by_cases h : cur = exp <;> simp [verify_and_fix_camera, hcam, hfind, h]
  · by_cases h : acur = "" <;> simp [verify_and_fix_audio, haud, h]
  · simp [verify_and_fix_input_settings, List.filterMap_append,
      List.filterMap_map, Function.comp_def]

/-- Witness for the amended C8: one camera with a mismatched binding
is corrected to the resolved device; one microphone with an empty
binding gets the default device; the combined run issues exactly those
two updates in order. -/
theorem C8_verify_and_fix_devices_witness :
    ((verify_and_fix_camera
        (VerifyEnv.mk (fun n => if n = "Camera 1" then some "old_cam" else none)
          (fun n => if n = "Mic 1" then some "" else some "dev")
          (fun n => if n = "Camera 1" then some "new_cam" else none)
          (fun _ => none) (fun _ => true)) "Camera 1").2 =
      (if ("old_cam" : String) = "new_cam" then none
        else some ("Camera 1", "new_cam")) ∧
    (verify_and_fix_audio
        (VerifyEnv.mk (fun n => if n = "Camera 1" then some "old_cam" else none)
          (fun n => if n = "Mic 1" then some "" else some "dev")
          (fun n => if n = "Camera 1" then some "new_cam" else none)
          (fun _ => none) (fun _ => true)) "Camera 1").2 =
      (if ("dev" : String) = "" then
        some ("Camera 1",
          ((VerifyEnv.mk (fun n => if n = "Camera 1" then some "old_cam" else none)
            (fun n => if n = "Mic 1" then some "" else some "dev")
            (fun n => if n = "Camera 1" then some "new_cam" else none)
            (fun _ => none) (fun _ => true)).find_audio "Camera 1").getD "default")
        else none) ∧
    (verify_and_fix_input_settings
        (VerifyEnv.mk (fun n => if n = "Camera 1" then some "old_cam" else none)
          (fun n => if n = "Mic 1" then some "" else some "dev")
          (fun n => if n = "Camera 1" then some "new_cam" else none)
          (fun _ => none) (fun _ => true))
        (ProfileConfiguration.mk "Demo" [] ["Camera 1"] ["Mic 1"] true)).2 =
      (ProfileConfiguration.mk "Demo" [] ["Camera 1"] ["Mic 1"]
          true).cameras.filterMap
        (fun c => (verify_and_fix_camera
          (VerifyEnv.mk (fun n => if n = "Camera 1" then some "old_cam" else none)
            (fun n => if n = "Mic 1" then some "" else some "dev")
            (fun n => if n = "Camera 1" then some "new_cam" else none)
            (fun _ => none) (fun _ => true)) c).2) ++
        (ProfileConfiguration.mk "Demo" [] ["Camera 1"] ["Mic 1"]
            true).audio_inputs.filterMap
          (fun a => (verify_and_fix_audio
            (VerifyEnv.mk (fun n => if n = "Camera 1" then some "old_cam" else none)
              (fun n => if n = "Mic 1" then some "" else some "dev")
              (fun n => if n = "Camera 1" then some "new_cam" else none)
              (fun _ => none) (fun _ => true)) a).2)) :=
  C8_verify_and_fix_devices
    (VerifyEnv.mk (fun n => if n = "Camera 1" then some "old_cam" else none)
      (fun n => if n = "Mic 1" then some "" else some "dev")
      (fun n => if n = "Camera 1" then some "new_cam" else none)
      (fun _ => none) (fun _ => true))
    (ProfileConfiguration.mk "Demo" [] ["Camera 1"] ["Mic 1"] true)
    "Camera 1" "old_cam" "new_cam" "dev" rfl rfl rfl

/-- The attribute names defined on the synchronous wrapper class
`OBSWebSocketSync` (obs_websocket.py lines 475-618): every method of
the class body.  Python resolves `self.ws.<name>` at call time and
raises AttributeError for any name not defined. -/
def obsWebSocketSyncMethods : List String :=
  ["_get_loop", "_run", "connected", "add_event_callback",
    "add_global_event_callback", "remove_event_callback", "connect",
    "disconnect", "send_request", "get_profile_list", "get_current_profile",
    "set_current_profile", "create_profile", "get_scene_list",
    "get_current_program_scene", "set_current_program_scene", "create_scene",
    "get_scene_item_list", "remove_scene_item", "get_input_list",
    "get_input_kind_list", "create_input", "get_input_settings",
    "set_input_settings", "get_source_filter_list", "create_source_filter",
    "set_source_filter_settings", "remove_source_filter", "get_record_status",
    "start_record", "stop_record", "toggle_record", "set_record_directory",
    "get_version", "is_recording"]

/-- The per-source track map built at obs_source_manager.py lines
952-955: for source index `idx` (0-based), track `idx+1` enabled and
every other of the 6 tracks disabled. -/
def track_config (idx : Nat) : List (String × Bool) :=
  (List.range 6).map (fun t0 => (toString (t0 + 1), t0 + 1 == idx + 1))

/-- The loop of `configure_audio_tracks` (obs_source_manager.py lines
948-964) over the first 6 sources: each iteration calls
`self.ws.set_input_audio_tracks(source_name, track_config)`.  The
lookup of that attribute on `OBSWebSocketSync` raises AttributeError
when the class defines no such method; otherwise (modelled for the
intended wrapper) the call's success per source is given by
`set_tracks_ok`.  Returns the success count and the (source, track)
assignments made. -/
def configure_audio_tracks_loop (set_tracks_ok : String → Bool) :
    Nat → List String → Except String (Nat × List (String × Nat))
  | _, [] => Except.ok (0, [])
  | idx, source_name :: rest =>
      if "set_input_audio_tracks" ∈ obsWebSocketSyncMethods then
        match configure_audio_tracks_loop set_tracks_ok (idx + 1) rest with
        | Except.error e => Except.error e
        | Except.ok (cnt, assigns) =>
            if set_tracks_ok source_name then
              Except.ok (cnt + 1, (source_name, idx + 1) :: assigns)
            else
              Except.ok (cnt, assigns)
      else
        Except.error
          "AttributeError: OBSWebSocketSync object has no attribute set_input_audio_tracks"

/-- `configure_audio_tracks` (obs_source_manager.py lines 930-973):
truncates to the first 6 sources (warning beyond 6), runs the loop,
and returns `success_count > 0`. -/
def configure_audio_tracks (set_tracks_ok : String → Bool)
    (audio_sources : List String) : Except String (Bool × List (String × Nat)) :=
  match configure_audio_tracks_loop set_tracks_ok 0 (audio_sources.take 6) with
  | Except.error e => Except.error e
  | Except.ok (cnt, assigns) => Except.ok (decide (0 < cnt), assigns)

/-- C5 at its failing input: `OBSWebSocketSync` defines no
`set_input_audio_tracks` method, so with 8 microphone sources the
first loop iteration raises AttributeError and no source is assigned a
track — the code never reaches the claimed first-6 assignment, whose
intended exclusive track map the pure `track_config` computation
(source index 0 to track 1 only) does encode.  An empty source list
returns without raising, with zero sources configured. -/
theorem C5_configure_audio_tracks_raises :
    configure_audio_tracks (fun _ => true)
        ["Mic 1", "Mic 2", "Mic 3", "Mic 4", "Mic 5", "Mic 6", "Mic 7", "Mic 8"]
      = Except.error
        "AttributeError: OBSWebSocketSync object has no attribute set_input_audio_tracks" ∧
    ("set_input_audio_tracks" ∈ obsWebSocketSyncMethods → False) ∧
    configure_audio_tracks (fun _ => true) [] = Except.ok (false, []) ∧
    track_config 0 = [("1", true), ("2", false), ("3", false), ("4", false),
      ("5", false), ("6", false)] := by
  refine ⟨rfl, by decide, rfl, ?_⟩
  decide

/-- A directory entry as `_collect_recordings` sees it: name, `st_mtime`
as an integer timestamp, and whether it is a regular file. -/
structure FEntry where
  name : String
  mtime : Int
  is_file : Bool
  deriving DecidableEq, Repr

/-- `video_extensions` (recording_manager.py line 503). -/
def video_extensions : List String := [".mov", ".mkv", ".mp4", ".avi", ".flv"]

/-- `file_path.suffix.lower() in video_extensions`
(recording_manager.py line 516): the lowercased name ends with one of
the extensions, with at least one character before it (pathlib gives a
dot-leading name such as ".mkv" an empty suffix). -/
def has_video_extension (name : String) : Bool :=
  video_extensions.any (fun ext =>
    (ext.toList).isSuffixOf (name.toList.map Char.toLower)
      && decide (ext.length < name.length))

/-- The per-directory scan of `_collect_recordings`
(recording_manager.py lines 513-526): regular files with a video
extension whose mtime is at or after the session start. -/
def collect_from (start_time : Int) (entries : List FEntry) : List FEntry :=
  entries.filter (fun f =>
    f.is_file && has_video_extension f.name && decide (start_time ≤ f.mtime))

/-- `_collect_recordings`'s collected set (recording_manager.py lines
507-526): the Videos directory (the remote app's default output
location) scanned first, then the project raw directory. -/
def collect_recordings (start_time : Int) (videos_dir raw_dir : List FEntry) :
    List FEntry :=
  collect_from start_time videos_dir ++ collect_from start_time raw_dir

/-- Matches the anchored date-time pattern — four digits, dash, two
digits, dash, two digits, the first separator, then two digits, dash,
two digits, dash, two digits, the second separator — returning the
remainder of the name (the regex patterns at recording_manager.py
lines 558 and 563; a Python digit modelled as an ASCII digit). -/
def match_datetime_stamp (sep1 sep2 : Char) : List Char → Option (List Char)
  | c0 :: c1 :: c2 :: c3 :: c4 :: c5 :: c6 :: c7 :: c8 :: c9 :: c10 ::
      c11 :: c12 :: c13 :: c14 :: c15 :: c16 :: c17 :: c18 :: c19 :: rest =>
      if ([c0, c1, c2, c3, c5, c6, c8, c9, c11, c12, c14, c15, c17, c18].all
            Char.isDigit)
          && c4 == '-' && c7 == '-' && c10 == sep1 && c13 == '-' && c16 == '-'
          && c19 == sep2 then
        some rest
      else none
  | _ => none

/-- `_clean_filename` (recording_manager.py lines 552-566): strip the
anchored `YYYY-MM-DD HH-MM-SS ` stamp; failing that, strip the
`YYYY-MM-DD_HH-MM-SS_` stamp; otherwise leave the name unchanged; a
name that cleans to the empty string falls back to the original. -/
def clean_filename (filename : String) : String :=
  match match_datetime_stamp ' ' ' ' filename.toList with
  | some rest => if rest.isEmpty then filename else String.mk rest
  | none =>
      match match_datetime_stamp '_' '_' filename.toList with
      | some rest => if rest.isEmpty then filename else String.mk rest
      | none => filename

/-- The moves performed by `_collect_recordings` (recording_manager.py
lines 532-548): each collected file goes into the newly created
`raw/<timestamp>/` subfolder under its cleaned name. -/
def collect_moves (start_time : Int) (timestamp : String)
    (videos_dir raw_dir : List FEntry) : List (String × String) :=
  (collect_recordings start_time videos_dir raw_dir).map
    (fun f => (timestamp, clean_filename f.name))

/-- C9: a file is collected exactly when it is a regular video file in
one of the two candidate directories with mtime at or after the
session start — in particular a video file with mtime before session
start is never collected; every collected file is moved into the
timestamped subfolder under raw/, under its name with a recognized
date-time stamp stripped when one matches (and the remainder
nonempty), the name unchanged when neither pattern matches. -/
theorem C9_collection_cutoff (start_time : Int) (timestamp : String)
    (videos_dir raw_dir : List FEntry) :
    (∀ f : FEntry, f ∈ collect_recordings start_time videos_dir raw_dir ↔
      ((f ∈ videos_dir ∨ f ∈ raw_dir) ∧ f.is_file = true ∧
        has_video_extension f.name = true ∧ start_time ≤ f.mtime)) ∧
    (∀ f : FEntry, f.mtime < start_time →
      f ∉ collect_recordings start_time videos_dir raw_dir) ∧
    collect_moves start_time timestamp videos_dir raw_dir =
      (collect_recordings start_time videos_dir raw_dir).map
        (fun f => (timestamp, clean_filename f.name)) ∧
    (∀ (name : String) (rest : List Char),
      match_datetime_stamp ' ' ' ' name.toList = some rest → rest ≠ [] →
      clean_filename name = String.mk rest) ∧
    (∀ name : String, match_datetime_stamp ' ' ' ' name.toList = none →
      match_datetime_stamp '_' '_' name.toList = none →
      clean_filename name = name) := by
  have hmem : ∀ f : FEntry, f ∈ collect_recordings start_time videos_dir raw_dir ↔
      ((f ∈ videos_dir ∨ f ∈ raw_dir) ∧ f.is_file = true ∧
        has_video_extension f.name = true ∧ start_time ≤ f.mtime) := by
    intro f
    simp only [collect_recordings, collect_from]
    constructor
    · intro hin
      rcases List.mem_append.mp hin with h | h
      · obtain ⟨hm, hp⟩ := List.mem_filter.mp h
        simp only [Bool.and_eq_true, decide_eq_true_eq] at hp
        exact ⟨Or.inl hm, hp.1.1, hp.1.2, hp.2⟩
      · obtain ⟨hm, hp⟩ := List.mem_filter.mp h
        simp only [Bool.and_eq_true, decide_eq_true_eq] at hp
        exact ⟨Or.inr hm, hp.1.1, hp.1.2, hp.2⟩
    · rintro ⟨hdir, h1, h2, h3⟩
      have hp : (f.is_file && has_video_extension f.name &&
          decide (start_time ≤ f.mtime)) = true := by
        simp [h1, h2, h3]
      rcases hdir with hm | hm
      · exact List.mem_append.mpr (Or.inl (List.mem_filter.mpr ⟨hm, hp⟩))
      · exact List.mem_append.mpr (Or.inr (List.mem_filter.mpr ⟨hm, hp⟩))
  refine ⟨hmem, ?_, rfl, ?_, ?_⟩
  · intro f hlt hin
    exact absurd ((hmem f).mp hin).2.2.2 (not_le.mpr hlt)
  · intro name rest hmatch hne
    rw [clean_filename, hmatch]
    simp [hne]
  · intro name h1 h2
    rw [clean_filename, h1, h2]

/-- Witness for C9: a stale video file is not collected, a fresh
stamped one is, its stamp is stripped on move, and an unstamped name
is left unchanged. -/
theorem C9_collection_cutoff_witness :
    FEntry.mk "old.mkv" 50 true ∉ collect_recordings 100
      [FEntry.mk "2024-01-02 03-04-05 Camera_1.mov" 150 true,
        FEntry.mk "old.mkv" 50 true] [] ∧
    FEntry.mk "2024-01-02 03-04-05 Camera_1.mov" 150 true ∈ collect_recordings 100
      [FEntry.mk "2024-01-02 03-04-05 Camera_1.mov" 150 true,
        FEntry.mk "old.mkv" 50 true] [] ∧
    clean_filename "2024-01-02 03-04-05 Camera_1.mov" = "Camera_1.mov" ∧
    clean_filename "plain.mov" = "plain.mov" :=
  ⟨(C9_collection_cutoff 100 "2024-01-02 03-04-05"
      [FEntry.mk "2024-01-02 03-04-05 Camera_1.mov" 150 true,
        FEntry.mk "old.mkv" 50 true] []).2.1
    (FEntry.mk "old.mkv" 50 true) (by decide),
   ((C9_collection_cutoff 100 "2024-01-02 03-04-05"
      [FEntry.mk "2024-01-02 03-04-05 Camera_1.mov" 150 true,
        FEntry.mk "old.mkv" 50 true] []).1
    (FEntry.mk "2024-01-02 03-04-05 Camera_1.mov" 150 true)).mpr (by decide),
   (C9_collection_cutoff 100 "2024-01-02 03-04-05"
      [FEntry.mk "2024-01-02 03-04-05 Camera_1.mov" 150 true,
        FEntry.mk "old.mkv" 50 true] []).2.2.2.1
    "2024-01-02 03-04-05 Camera_1.mov" ("Camera_1.mov".toList)
    (by decide) (by decide),
   (C9_collection_cutoff 100 "2024-01-02 03-04-05"
      [FEntry.mk "2024-01-02 03-04-05 Camera_1.mov" 150 true,
        FEntry.mk "old.mkv" 50 true] []).2.2.2.2
    "plain.mov" (by decide) (by decide)⟩

end Obs
